import Mathlib

/-!
Shallow embedding of the query/aggregation/maintenance core of the
AI-Predictive-Maintenance chatbot backend.

JavaScript numbers are modelled as exact rationals (`ℚ`), SQL `NULL` /
JS `undefined` column values as `Option ℚ`, thrown JS errors as the
`Except` error branch, and the JSON arrays `[]` / `[{average: x}]`
returned by the historical-average queries as `Option ℚ`.
-/

/- Batteries seals the `Rat` field operations; reopening them lets
concrete runs of the embedded code be settled by `decide`. -/
set_option allowUnsafeReducibility true in
attribute [semireducible] Rat.ofScientific Rat.mul Rat.inv Rat.add Rat.sub

/-- JS `Math.round`: round half toward positive infinity. -/
def jsRound (x : ℚ) : ℤ := ⌊x + 1/2⌋

/-- Left-pad the decimal rendering of `m` with zeros to `d` digits
(the fractional part of `Number.prototype.toFixed`). -/
def zeroPad (d : ℕ) (m : ℕ) : String :=
  let s := toString m
  String.mk (List.replicate (d - s.length) '0') ++ s

/-- `toFixed` on a nonnegative rational: round to `d` decimal places,
ties away from zero, and render with exactly `d` fractional digits. -/
def jsToFixedNonneg (d : ℕ) (x : ℚ) : String :=
  let n : ℕ := (⌊x * (10:ℚ)^d + 1/2⌋).toNat
  if d = 0 then toString n
  else toString (n / 10^d) ++ "." ++ zeroPad d (n % 10^d)

/-- JS `Number.prototype.toFixed(d)`: fixed-point rendering with `d`
fractional digits, rounding to nearest with ties away from zero. -/
def jsToFixed (d : ℕ) (x : ℚ) : String :=
  if x < 0 then "-" ++ jsToFixedNonneg d (-x) else jsToFixedNonneg d x

/-- JS `String.prototype.startsWith`. -/
def jsStartsWith (s pre : String) : Bool :=
  pre.data.isPrefixOf s.data

/-- JS `String.prototype.substring(n)`: drop the first `n` characters. -/
def jsSubstringFrom (n : ℕ) (s : String) : String :=
  ⟨s.data.drop n⟩

/-- JS `String.prototype.trim`: strip whitespace from both ends. -/
def jsTrim (s : String) : String :=
  ⟨((s.data.dropWhile Char.isWhitespace).reverse.dropWhile
      Char.isWhitespace).reverse⟩

/-- Split a character list at every occurrence of `sep`
(accumulating the current piece in reverse). -/
def jsSplitAux (sep : Char) : List Char → List Char → List String
  | [], acc => [⟨acc.reverse⟩]
  | x :: xs, acc =>
    if x = sep then ⟨acc.reverse⟩ :: jsSplitAux sep xs []
    else jsSplitAux sep xs (x :: acc)

/-- JS `String.prototype.split` with a single-character separator:
`"".split(sep)` is `[""]`, and adjacent separators yield empty pieces. -/
def jsSplit (sep : Char) (s : String) : List String :=
  jsSplitAux sep s.data []

/-- Replace the first occurrence of `pat` in a character list
(JS `String.prototype.replace` with a string pattern replaces only the
first match). -/
def jsReplaceFirstAux (pat : List Char) : List Char → List Char
  | [] => []
  | x :: xs =>
    if pat.isPrefixOf (x :: xs) then (x :: xs).drop pat.length
    else x :: jsReplaceFirstAux pat xs

/-- JS `s.replace(pat, "")` for a non-empty string pattern: delete the
first occurrence of `pat`. -/
def jsReplaceFirst (pat : String) (s : String) : String :=
  ⟨jsReplaceFirstAux pat.data s.data⟩

/-- JS `parseInt` applied to a possibly-`undefined` string: `none`
models `NaN` (no leading digits or `undefined` input). -/
def jsParseInt (s : Option String) : Option ℤ :=
  match s with
  | none => none
  | some str =>
    let t := jsTrim str
    let (sign, rest) : ℤ × String :=
      if jsStartsWith t "-" then (-1, jsSubstringFrom 1 t)
      else if jsStartsWith t "+" then (1, jsSubstringFrom 1 t)
      else (1, t)
    let digits := rest.data.takeWhile Char.isDigit
    if digits.isEmpty then none
    else some (sign * (digits.foldl (fun acc c => acc * 10 + (c.toNat - 48)) 0 : ℕ))

/-- One row of the `predictions` table
(`supabaseService.js`: fields consumed by `checkPredictionMaintenance`). -/
structure PredictionRecord where
  timestamp : ℚ
  anomaly : Bool
  failure_probability : ℚ
  health_index : ℚ
  remaining_useful_life : ℚ
  deriving Repr, DecidableEq

/-- The object returned by `checkPredictionMaintenance`. -/
structure PredictionMaintenanceResult where
  maintenance_needed : Bool
  confidence : ℤ
  reasons : List String
  remaining_useful_life : Option ℚ
  health_index : Option ℚ
  failure_probability : Option ℚ
  anomaly_detected : Bool
  last_prediction_time : Option ℚ
  deriving Repr, DecidableEq

/-- `supabaseService.checkPredictionMaintenance`, as a function of the
latest `predictions` row (`none` = table empty).  Mirrors the source:
the `needed` flag uses thresholds `failure_probability > 0.4`,
`health_index < 50`, `remaining_useful_life < 48`; the confidence is the
`[3,2,1,1]`-weighted average of the four indicator scores, rounded and
capped at 100; the reasons use the softer thresholds `0.4`, `70`, `168`. -/
def checkPredictionMaintenance (latestPrediction : Option PredictionRecord) :
    PredictionMaintenanceResult :=
  match latestPrediction with
  | none =>
    { maintenance_needed := false
      confidence := 0
      reasons := ["No prediction data available"]
      remaining_useful_life := none
      health_index := none
      failure_probability := none
      anomaly_detected := false
      last_prediction_time := none }
  | some p =>
    let maintenanceNeeded : Bool :=
      p.anomaly || decide (p.failure_probability > 0.4) ||
        decide (p.health_index < 50) || decide (p.remaining_useful_life < 48)
    let confidenceCalculation : List ℚ :=
      [if p.anomaly then 100 else 0,
       p.failure_probability * 100,
       100 - p.health_index,
       if p.remaining_useful_life < 168 then
         (168 - p.remaining_useful_life) / 1.68 else 0]
    let weights : List ℚ := [3, 2, 1, 1]
    let weightedSum := (List.zipWith (· * ·) confidenceCalculation weights).sum
    let weightSum := weights.sum
    let confidence : ℤ := min 100 (jsRound (weightedSum / weightSum))
    let reasons : List String :=
      (if p.anomaly then ["Anomaly detected in system operation"] else []) ++
      (if p.failure_probability > 0.4 then
        ["High failure probability: " ++
          jsToFixed 1 (p.failure_probability * 100) ++ "%"] else []) ++
      (if p.health_index < 70 then
        ["Low health index: " ++ jsToFixed 1 p.health_index ++ "/100"] else []) ++
      (if p.remaining_useful_life < 168 then
        ["Limited remaining useful life: " ++
          jsToFixed 0 p.remaining_useful_life ++ " hours"] else [])
    let reasons :=
      if reasons.length = 0 && !maintenanceNeeded then
        reasons ++ ["All parameters within normal operating ranges"]
      else reasons
    { maintenance_needed := maintenanceNeeded
      confidence := confidence
      reasons := reasons
      remaining_useful_life := some p.remaining_useful_life
      health_index := some p.health_index
      failure_probability := some p.failure_probability
      anomaly_detected := p.anomaly
      last_prediction_time := some p.timestamp }

/-- One row of the `sensor_history` table restricted to one selected
column: timestamp plus the (nullable) value of that column
(the shape returned by `select(field).gte("timestamp", since)`). -/
structure FieldRow where
  timestamp : ℚ
  value : Option ℚ
  deriving Repr, DecidableEq

/-- `supabaseService.getHistoricalAverage`, as a function of the full
table contents and the window start.  The Supabase `gte` filter is the
`List.filter`; JS `[]` / `[{average: x}]` become `none` / `some x`.
Null and `undefined` column values are dropped before both the sum and
the count. -/
def getHistoricalAverage (rows : List FieldRow) (since : ℚ) : Option ℚ :=
  let data := rows.filter (fun r => since ≤ r.timestamp)
  if data.length > 0 then
    let validValues := (data.map (fun r => r.value)).filterMap id
    if validValues.length = 0 then none
    else some (validValues.sum / validValues.length)
  else none

/-- The inline `getHistoricalAverage` of the legacy `Server.js` variant:
`parseFloat(record[field] || 0)` coerces null/missing to `0` and the
denominator is the full row count. -/
def serverGetHistoricalAverage (rows : List FieldRow) (since : ℚ) : Option ℚ :=
  let data := rows.filter (fun r => since ≤ r.timestamp)
  if data.length > 0 then
    some ((data.map (fun r => (r.value).getD 0)).sum / data.length)
  else none

/-- One full row of the `sensor_history` table, as a timestamp plus a
column lookup (`none` models SQL `NULL` and absent columns). -/
structure SensorRow where
  timestamp : ℚ
  value : String → Option ℚ

/-- `Object.keys(config.sensorFields)` from `src/config/index.js` —
the 13 field-name keys plus the nested `units` and `displayNames`
objects, in insertion order. -/
def sensorFieldKeys : List String :=
  ["temperature_internal", "temperature_evaporator", "ambient_temperature",
   "humidity_internal", "pressure_refrigerant", "current_compressor",
   "vibration_level", "gas_leak_level", "compressor_status",
   "compressor_cycle_time", "energy_consumption", "temperature_gradient",
   "pressure_trend", "units", "displayNames"]

/-- The numeric sensor channels of the `sensor_history` schema
(every `sensorFields` key except the boolean `compressor_status` and
the nested `units` / `displayNames` objects). -/
def numericSensorChannels : List String :=
  ["temperature_internal", "temperature_evaporator", "ambient_temperature",
   "humidity_internal", "pressure_refrigerant", "current_compressor",
   "vibration_level", "gas_leak_level",
   "compressor_cycle_time", "energy_consumption", "temperature_gradient",
   "pressure_trend"]

/-- `supabaseService.getAverageOfAllSensors`: for each `sensorFields`
key, sum `parseFloat(record[field] || 0)` over every row of the window
and divide by the row count; an empty window yields the empty object. -/
def getAverageOfAllSensors (rows : List SensorRow) (since : ℚ) :
    List (String × ℚ) :=
  let data := rows.filter (fun r => since ≤ r.timestamp)
  if data.length > 0 then
    sensorFieldKeys.map (fun f =>
      (f, (data.map (fun r => (r.value f).getD 0)).sum / data.length))
  else []

/-- One row of the `predictions` table as selected by
`getAnomalySummary` (`select("anomaly, timestamp")`). -/
structure AnomalyRow where
  timestamp : ℚ
  anomaly : Bool
  deriving Repr, DecidableEq

/-- The object returned by `getAnomalySummary`. -/
structure AnomalySummary where
  total_predictions : ℕ
  anomaly_count : ℕ
  anomaly_percentage : String
  anomaly_timestamps : List ℚ
  deriving Repr, DecidableEq

/-- `supabaseService.getAnomalySummary`: row count, `anomaly === true`
count, percentage via `toFixed(1)` (0 for an empty window), and the
anomaly timestamps sorted newest first, truncated to the 5 most
recent. -/
def getAnomalySummary (rows : List AnomalyRow) (since : ℚ) : AnomalySummary :=
  let data := rows.filter (fun r => since ≤ r.timestamp)
  let totalCount := data.length
  let anomalyCount := (data.filter (fun r => r.anomaly == true)).length
  let anomalyPercentage : ℚ :=
    if totalCount > 0 then ((anomalyCount : ℚ) / (totalCount : ℚ)) * 100 else 0
  let anomalyTimestamps :=
    List.insertionSort (fun a b : ℚ => b ≤ a)
      ((data.filter (fun r => r.anomaly == true)).map (fun r => r.timestamp))
  { total_predictions := totalCount
    anomaly_count := anomalyCount
    anomaly_percentage := jsToFixed 1 anomalyPercentage
    anomaly_timestamps := anomalyTimestamps.take 5 }

/-- The latest `sensor_history` row as consumed by `checkMaintenance`
(the four thresholded channels; non-null, as the source dereferences
them unconditionally). -/
structure SensorReading where
  compressor_vibration : ℚ
  gas_leakage_level : ℚ
  temperature_diff : ℚ
  power_consumption : ℚ
  deriving Repr, DecidableEq

/-- The object returned by `checkMaintenance`. -/
structure MaintenanceResult where
  needed : Bool
  reason : String
  data : Option SensorReading
  deriving Repr, DecidableEq

/-- The `issues` array built by `supabaseService.checkMaintenance`:
one message per exceeded threshold, in source order. -/
def maintenanceIssues (d : SensorReading) : List String :=
  (if d.compressor_vibration > 10.0 then
    ["High compressor vibration (" ++ jsToFixed 2 d.compressor_vibration ++
      " mm/s)"] else []) ++
  (if d.gas_leakage_level > 50.0 then
    ["Elevated gas leakage level (" ++ jsToFixed 2 d.gas_leakage_level ++
      " ppm)"] else []) ++
  (if |d.temperature_diff| > 25.0 then
    ["Abnormal temperature difference (" ++ jsToFixed 2 d.temperature_diff ++
      " °C)"] else []) ++
  (if d.power_consumption > 500.0 then
    ["High power consumption (" ++ jsToFixed 2 d.power_consumption ++
      " W)"] else [])

/-- `supabaseService.checkMaintenance`, as a function of the latest
sensor row (`none` = table empty).  `needed = issues.length > 0`; the
`reason` string joins the issues with `", "`. -/
def checkMaintenance (latestData : Option SensorReading) : MaintenanceResult :=
  match latestData with
  | none => { needed := false, reason := "No sensor data available", data := none }
  | some d =>
    let issues := maintenanceIssues d
    { needed := decide (issues.length > 0)
      reason :=
        if issues.length > 0 then String.intercalate ", " issues
        else "All parameters within normal ranges"
      data := some d }

/-- A thrown JS error, reduced to its message. -/
structure JsError where
  message : String
  deriving Repr, DecidableEq

/-- The opaque structured data a store query resolves to (the
orchestrator only forwards it to the formatter). -/
def StoreData : Type := String

/-- One call into the Supabase service layer, tagged with the arguments
the chat controller passes (`none` field/duration models a JS
`undefined` / `NaN` argument). -/
inductive StoreCall where
  | currentValue (field : Option String)
  | historicalAverage (field : Option String) (days : Option ℤ)
  | historicalMax (field : Option String) (days : Option ℤ)
  | historicalMin (field : Option String) (days : Option ℤ)
  | trendData (field : Option String) (hours : Option ℤ)
  | status (field : Option String)
  | averageOfAllSensors (days : Option ℤ)
  | timeOfHighestValue (field : Option String) (days : Option ℤ)
  | vibrationDetails (days : Option ℤ)
  | maintenanceCheck
  | latestPrediction
  | predictionHistory (field : Option String) (days : Option ℤ)
  | anomalySummary (days : Option ℤ)
  | predictionMaintenance
  deriving Repr, DecidableEq

/-- The environment a chat request runs against: the two language-model
calls and the store, each able to resolve or throw. -/
structure ChatEnv where
  classify : String → Except JsError String
  store : StoreCall → Except JsError StoreData
  format : String → String → Option String → StoreData → Except JsError String

/-- An HTTP reply produced by the `/chat` handler. -/
structure HttpResponse where
  status : ℕ
  response : String
  deriving Repr, DecidableEq

/-- The observable outcome of one chat request: the HTTP reply, the
store calls issued, the number of formatter calls, and the
`console.error` log. -/
structure ChatResult where
  resp : HttpResponse
  storeCalls : List StoreCall
  formatCalls : ℕ
  log : List String
  deriving Repr, DecidableEq

/-- The fixed apology sent from the controller's `catch` block. -/
def apologyMessage : String :=
  "Sorry, I encountered an error processing your request. Please try again."

/-- The fixed clarification sent from the `switch` default branch. -/
def clarificationMessage : String :=
  "I'm not sure how to answer that. Could you rephrase your question?"

/-- The operation codes of the chat controller's `switch`. -/
def knownOperations : List String :=
  ["CURRENT_VALUE", "HISTORICAL_AVG", "HISTORICAL_MAX", "HISTORICAL_MIN",
   "TREND", "STATUS", "AVERAGE_ALL_SENSORS", "TIME_OF_HIGHEST",
   "VIBRATION_DETAILS", "MAINTENANCE_CHECK", "PREDICTION_LATEST",
   "PREDICTION_HISTORY", "ANOMALY_SUMMARY", "PREDICTION_MAINTENANCE"]

/-- What the `switch` on the query type does before any store call:
issue a store call, throw (the `TREND` branch calls
`timeRange.replace(...)` on a missing token), or fall to the default
clarification branch. -/
inductive DispatchStep where
  | call (c : StoreCall)
  | jsThrow (e : JsError)
  | unrecognized
  deriving Repr, DecidableEq

/-- The JS `TypeError` thrown by `timeRange.replace("hours", "")`
when the classifier omitted the time-range token. -/
def trendUndefinedError : JsError :=
  { message := "TypeError: cannot read replace of undefined" }

/-- The `switch (queryType)` of `chatController.handleChatRequest`,
one branch per operation code, mirroring the argument plumbing
(`parseInt(timeRange)`, and for `TREND` the `replace("hours", "")`
stripping that throws on `undefined`). -/
def dispatch (queryType : String) (field timeRange : Option String) :
    DispatchStep :=
  if queryType = "CURRENT_VALUE" then .call (.currentValue field)
  else if queryType = "HISTORICAL_AVG" then
    .call (.historicalAverage field (jsParseInt timeRange))
  else if queryType = "HISTORICAL_MAX" then
    .call (.historicalMax field (jsParseInt timeRange))
  else if queryType = "HISTORICAL_MIN" then
    .call (.historicalMin field (jsParseInt timeRange))
  else if queryType = "TREND" then
    match timeRange with
    | none => .jsThrow trendUndefinedError
    | some t =>
      .call (.trendData field (jsParseInt (some (jsReplaceFirst "hours" t))))
  else if queryType = "STATUS" then .call (.status field)
  else if queryType = "AVERAGE_ALL_SENSORS" then
    .call (.averageOfAllSensors (jsParseInt timeRange))
  else if queryType = "TIME_OF_HIGHEST" then
    .call (.timeOfHighestValue field (jsParseInt timeRange))
  else if queryType = "VIBRATION_DETAILS" then
    .call (.vibrationDetails (jsParseInt timeRange))
  else if queryType = "MAINTENANCE_CHECK" then .call .maintenanceCheck
  else if queryType = "PREDICTION_LATEST" then .call .latestPrediction
  else if queryType = "PREDICTION_HISTORY" then
    .call (.predictionHistory field (jsParseInt timeRange))
  else if queryType = "ANOMALY_SUMMARY" then
    .call (.anomalySummary (jsParseInt timeRange))
  else if queryType = "PREDICTION_MAINTENANCE" then .call .predictionMaintenance
  else .unrecognized

/-- The log line of the controller's `catch` block. -/
def errorLogOf (e : JsError) : String :=
  "Error processing prompt: " ++ e.message

/-- `chatController.handleChatRequest`: classify, short-circuit on
`GENERAL:`, split the intent on `":"`, dispatch to the store layer,
format, and map any thrown error to a 500 apology.  Every path returns
a response; the call trace and log are carried alongside. -/
def handleChatRequest (env : ChatEnv) (userPrompt : String) : ChatResult :=
  match env.classify userPrompt with
  | .error e =>
    { resp := ⟨500, apologyMessage⟩, storeCalls := [], formatCalls := 0,
      log := [errorLogOf e] }
  | .ok result =>
    if jsStartsWith result "GENERAL:" then
      { resp := ⟨200, jsTrim (jsSubstringFrom 8 result)⟩, storeCalls := [],
        formatCalls := 0, log := [] }
    else
      let parts := jsSplit ':' result
      let queryType := parts.headD ""
      let field := parts[1]?
      let timeRange := parts[2]?
      match dispatch queryType field timeRange with
      | .unrecognized =>
        { resp := ⟨200, clarificationMessage⟩, storeCalls := [],
          formatCalls := 0, log := [] }
      | .jsThrow e =>
        { resp := ⟨500, apologyMessage⟩, storeCalls := [], formatCalls := 0,
          log := [errorLogOf e] }
      | .call c =>
        match env.store c with
        | .error e =>
          { resp := ⟨500, apologyMessage⟩, storeCalls := [c],
            formatCalls := 0, log := [errorLogOf e] }
        | .ok data =>
          match env.format userPrompt queryType field data with
          | .error e =>
            { resp := ⟨500, apologyMessage⟩, storeCalls := [c],
              formatCalls := 1, log := [errorLogOf e] }
          | .ok response =>
            { resp := ⟨200, response⟩, storeCalls := [c], formatCalls := 1,
              log := [] }

/-! ## Helper lemmas -/

lemma lookup_map_pair {β : Type} (g : String → β) :
    ∀ (l : List String) (f : String), f ∈ l →
      (l.map (fun x => (x, g x))).lookup f = some (g f)
  | [], f, h => absurd h (List.not_mem_nil f)
  | x :: xs, f, h => by
    by_cases hx : f = x
    · subst hx
      simp [List.lookup]
    · have hmem : f ∈ xs := (List.mem_cons.mp h).resolve_left hx
      simp only [List.map_cons, List.lookup, beq_eq_false_iff_ne.mpr hx]
      exact lookup_map_pair g xs f hmem

lemma numeric_subset_sensorFieldKeys :
    ∀ f ∈ numericSensorChannels, f ∈ sensorFieldKeys := by
  decide

lemma dispatch_not_known (q : String) (f t : Option String)
    (h : q ∉ knownOperations) : dispatch q f t = .unrecognized := by
  simp only [knownOperations, List.mem_cons, List.not_mem_nil, or_false,
    not_or] at h
  obtain ⟨n1, n2, n3, n4, n5, n6, n7, n8, n9, n10, n11, n12, n13, n14⟩ := h
  simp [dispatch, n1, n2, n3, n4, n5, n6, n7, n8, n9, n10, n11, n12, n13, n14]

/-! ## Claim theorems -/

/-- Claim C1: for every prediction record, the prediction-strategy
maintenance check returns confidence
`min(100, round((3*(anomaly ? 100 : 0) + 2*(failure_probability*100) +
1*(100-health_index) + 1*(RUL < 168 ? (168-RUL)/1.68 : 0)) / 7))`,
with `round` the JS `Math.round` (half toward positive infinity). -/
theorem checkPredictionMaintenance_confidence_formula (p : PredictionRecord) :
    (checkPredictionMaintenance (some p)).confidence =
      min 100 (jsRound ((3 * (if p.anomaly then (100 : ℚ) else 0) +
        2 * (p.failure_probability * 100) + 1 * (100 - p.health_index) +
        1 * (if p.remaining_useful_life < 168 then
          (168 - p.remaining_useful_life) / 1.68 else 0)) / 7)) := by
  simp only [checkPredictionMaintenance, List.zipWith, List.sum_cons,
    List.sum_nil]
  norm_num
  congr 2
  ring

/-- Claim C2, counterexample: at the claim's own instance (anomaly
true, failure probability 1/5 ≤ 0.4, health index 80 ≥ 70, RUL
200 ≥ 168) the check does flag maintenance but the reasons list is the
anomaly singleton, not empty. -/
theorem anomalyOnly_prediction_has_anomaly_reason :
    (checkPredictionMaintenance
      (some ⟨0, true, 1/5, 80, 200⟩)).maintenance_needed = true ∧
    (checkPredictionMaintenance (some ⟨0, true, 1/5, 80, 200⟩)).reasons =
      ["Anomaly detected in system operation"] ∧
    (checkPredictionMaintenance (some ⟨0, true, 1/5, 80, 200⟩)).reasons ≠
      [] := by
  decide

/-- Claim C2, amended: a record whose only tripped indicator is the
anomaly flag yields `maintenance_needed = true` together with exactly
the one anomaly reason string (the `if (anomaly)` branch also pushes a
reason), and no prediction record ever yields `maintenance_needed =
true` with an empty reasons list. -/
theorem checkPredictionMaintenance_needed_never_reasonless :
    (∀ p : PredictionRecord, p.anomaly = true →
      p.failure_probability ≤ 0.4 → 70 ≤ p.health_index →
      168 ≤ p.remaining_useful_life →
      (checkPredictionMaintenance (some p)).maintenance_needed = true ∧
      (checkPredictionMaintenance (some p)).reasons =
        ["Anomaly detected in system operation"]) ∧
    (∀ p : PredictionRecord,
      (checkPredictionMaintenance (some p)).maintenance_needed = true →
      (checkPredictionMaintenance (some p)).reasons ≠ []) := by
  constructor
  · intro p ha h1 h2 h3
    simp only [checkPredictionMaintenance, ha, if_true]
    rw [if_neg (not_lt.mpr h1), if_neg (not_lt.mpr h2), if_neg (not_lt.mpr h3)]
    simp
  · intro p h
    by_cases ha : p.anomaly
    · simp [checkPredictionMaintenance, ha]
    · by_cases hb : p.failure_probability > 0.4
      · simp [checkPredictionMaintenance, hb, List.append_eq_nil]
      · by_cases hc : p.health_index < 70
        · simp [checkPredictionMaintenance, hc, List.append_eq_nil]
        · by_cases hd : p.remaining_useful_life < 168
          · simp [checkPredictionMaintenance, hd, List.append_eq_nil]
          · exfalso
            have hc' : ¬(p.health_index < 50) := fun hlt => hc (by linarith)
            have hd' : ¬(p.remaining_useful_life < 48) :=
              fun hlt => hd (by linarith)
            simp [checkPredictionMaintenance, ha, hb, hc', hd'] at h

/-- Claim C2, witness for the amended theorem at the concrete record
`⟨0, true, 1/5, 80, 200⟩`. -/
theorem checkPredictionMaintenance_needed_never_reasonless_witness :
    (checkPredictionMaintenance
      (some ⟨0, true, 1/5, 80, 200⟩)).maintenance_needed = true ∧
    (checkPredictionMaintenance (some ⟨0, true, 1/5, 80, 200⟩)).reasons =
      ["Anomaly detected in system operation"] :=
  checkPredictionMaintenance_needed_never_reasonless.1
    ⟨0, true, 1/5, 80, 200⟩ rfl (by decide) (by decide) (by decide)

/-- Claim C3: over a non-empty window, `AVERAGE_ALL_SENSORS` reports,
for every known numeric channel, the sum of that channel's values with
null/missing coerced to 0 divided by the total row count; a channel
whose values are all null therefore reports a mean of 0 (a present
entry, not null). -/
theorem getAverageOfAllSensors_nullAsZero_mean :
    (∀ (rows : List SensorRow) (since : ℚ) (f : String),
      f ∈ numericSensorChannels →
      (rows.filter (fun r => since ≤ r.timestamp)).length > 0 →
      (getAverageOfAllSensors rows since).lookup f =
        some (((rows.filter (fun r => since ≤ r.timestamp)).map
            (fun r => (r.value f).getD 0)).sum /
          ((rows.filter (fun r => since ≤ r.timestamp)).length : ℚ))) ∧
    (∀ (rows : List SensorRow) (since : ℚ) (f : String),
      f ∈ numericSensorChannels →
      (rows.filter (fun r => since ≤ r.timestamp)).length > 0 →
      (∀ r ∈ rows.filter (fun r => since ≤ r.timestamp), r.value f = none) →
      (getAverageOfAllSensors rows since).lookup f = some 0) := by
  have base : ∀ (rows : List SensorRow) (since : ℚ) (f : String),
      f ∈ numericSensorChannels →
      (rows.filter (fun r => since ≤ r.timestamp)).length > 0 →
      (getAverageOfAllSensors rows since).lookup f =
        some (((rows.filter (fun r => since ≤ r.timestamp)).map
            (fun r => (r.value f).getD 0)).sum /
          ((rows.filter (fun r => since ≤ r.timestamp)).length : ℚ)) := by
    intro rows since f hf hlen
    unfold getAverageOfAllSensors
    rw [if_pos hlen]
    exact lookup_map_pair _ sensorFieldKeys f
      (numeric_subset_sensorFieldKeys f hf)
  refine ⟨base, ?_⟩
  intro rows since f hf hlen hnull
  rw [base rows since f hf hlen]
  have hz : ((rows.filter (fun r => since ≤ r.timestamp)).map
      (fun r => (r.value f).getD 0)).sum = 0 := by
    apply List.sum_eq_zero
    intro x hx
    rcases List.mem_map.mp hx with ⟨r, hr, hrx⟩
    rw [← hrx, hnull r hr]
    rfl
  rw [hz, zero_div]

/-- Claim C3, witness: two in-window rows valued 10 and 30 on
`temperature_internal` average to 20, and the all-null
`humidity_internal` channel reports a mean of 0. -/
theorem getAverageOfAllSensors_nullAsZero_mean_witness :
    (getAverageOfAllSensors
        [⟨0, fun f => if f = "temperature_internal" then some 10 else none⟩,
         ⟨1, fun f => if f = "temperature_internal" then some 30 else none⟩]
        0).lookup "temperature_internal" = some 20 ∧
    (getAverageOfAllSensors
        [⟨0, fun f => if f = "temperature_internal" then some 10 else none⟩,
         ⟨1, fun f => if f = "temperature_internal" then some 30 else none⟩]
        0).lookup "humidity_internal" = some 0 := by
  constructor
  · have h := getAverageOfAllSensors_nullAsZero_mean.1
      [⟨0, fun f => if f = "temperature_internal" then some 10 else none⟩,
       ⟨1, fun f => if f = "temperature_internal" then some 30 else none⟩]
      0 "temperature_internal" (by decide) (by decide)
    rw [h]
    decide
  · exact getAverageOfAllSensors_nullAsZero_mean.2
      [⟨0, fun f => if f = "temperature_internal" then some 10 else none⟩,
       ⟨1, fun f => if f = "temperature_internal" then some 30 else none⟩]
      0 "humidity_internal" (by decide) (by decide) (by decide)

/-- Claim C4, counterexample: the legacy `Server.js` inline
`getHistoricalAverage` does let nulls contribute — on rows valued
`[null, 10]` it returns 5, not the non-null mean 10, and on a single
all-null row it returns 0 instead of an empty result. -/
theorem serverGetHistoricalAverage_counts_nulls :
    serverGetHistoricalAverage [⟨0, none⟩, ⟨0, some 10⟩] 0 = some 5 ∧
    (5 : ℚ) ≠ 10 ∧
    serverGetHistoricalAverage [⟨0, none⟩] 0 = some 0 := by
  decide

/-- Claim C4, amended: `supabaseService.getHistoricalAverage` returns
the arithmetic mean of the non-null in-window values (nulls enter
neither numerator nor denominator), and an empty window or zero valid
values yields the empty result `none`; on `[10, 20, 30]` it returns 20.
The legacy `Server.js` inline variant instead coerces nulls to 0 and
divides by the total row count, returning `none` only for an empty
window. -/
theorem getHistoricalAverage_nonNull_mean :
    (∀ (rows : List FieldRow) (since : ℚ),
      getHistoricalAverage rows since =
        (if (((rows.filter (fun r => since ≤ r.timestamp)).map
            (fun r => r.value)).filterMap id).isEmpty then none
         else some ((((rows.filter (fun r => since ≤ r.timestamp)).map
            (fun r => r.value)).filterMap id).sum /
          ((((rows.filter (fun r => since ≤ r.timestamp)).map
            (fun r => r.value)).filterMap id).length : ℚ)))) ∧
    (∀ (rows : List FieldRow) (since : ℚ),
      serverGetHistoricalAverage rows since =
        (if (rows.filter (fun r => since ≤ r.timestamp)).isEmpty then none
         else some (((rows.filter (fun r => since ≤ r.timestamp)).map
            (fun r => (r.value).getD 0)).sum /
          (((rows.filter (fun r => since ≤ r.timestamp)).length : ℚ))))) ∧
    getHistoricalAverage [⟨0, some 10⟩, ⟨0, some 20⟩, ⟨0, some 30⟩] 0 =
      some 20 := by
  refine ⟨?_, ?_, by decide⟩
  · intro rows since
    unfold getHistoricalAverage
    by_cases hd : rows.filter (fun r => since ≤ r.timestamp) = []
    · simp [hd]
    · have hl : (rows.filter (fun r => since ≤ r.timestamp)).length > 0 :=
        List.length_pos.mpr hd
      rw [if_pos hl]
      by_cases hv : ((rows.filter (fun r => since ≤ r.timestamp)).map
          (fun r => r.value)).filterMap id = []
      · simp [hv]
      · have hvl : (((rows.filter (fun r => since ≤ r.timestamp)).map
            (fun r => r.value)).filterMap id).length ≠ 0 := by
          simpa [List.length_eq_zero] using hv
        rw [if_neg hvl, if_neg (by simpa [List.isEmpty_iff] using hv)]
  · intro rows since
    unfold serverGetHistoricalAverage
    by_cases hd : rows.filter (fun r => since ≤ r.timestamp) = []
    · simp [hd]
    · rw [if_pos (List.length_pos.mpr hd),
        if_neg (by simpa [List.isEmpty_iff] using hd)]

/-- Claim C5: `ANOMALY_SUMMARY` reports the window's row count, its
`anomaly = true` count, the percentage rendered by `toFixed(1)` (0 for
zero rows, so `"0.0"`, never NaN), and at most 5 anomaly timestamps
sorted most-recent first, all drawn from the window's anomaly rows; 10
rows with 3 anomalies yield `total_predictions = 10`,
`anomaly_count = 3`, `anomaly_percentage = "30.0"`. -/
theorem getAnomalySummary_counts_and_recent :
    (∀ (rows : List AnomalyRow) (since : ℚ),
      (getAnomalySummary rows since).total_predictions =
        (rows.filter (fun r => since ≤ r.timestamp)).length ∧
      (getAnomalySummary rows since).anomaly_count =
        ((rows.filter (fun r => since ≤ r.timestamp)).filter
          (fun r => r.anomaly == true)).length ∧
      (getAnomalySummary rows since).anomaly_percentage =
        jsToFixed 1
          (if (rows.filter (fun r => since ≤ r.timestamp)).length > 0 then
            ((((rows.filter (fun r => since ≤ r.timestamp)).filter
                (fun r => r.anomaly == true)).length : ℚ) /
              (((rows.filter (fun r => since ≤ r.timestamp)).length : ℚ))) *
              100
          else 0) ∧
      ((rows.filter (fun r => since ≤ r.timestamp)).length = 0 →
        (getAnomalySummary rows since).anomaly_percentage = "0.0") ∧
      (getAnomalySummary rows since).anomaly_timestamps.length ≤ 5 ∧
      List.Sorted (fun a b : ℚ => b ≤ a)
        (getAnomalySummary rows since).anomaly_timestamps ∧
      (∀ t ∈ (getAnomalySummary rows since).anomaly_timestamps,
        ∃ r ∈ rows.filter (fun r => since ≤ r.timestamp),
          r.anomaly = true ∧ r.timestamp = t)) ∧
    getAnomalySummary
      [⟨1, true⟩, ⟨2, false⟩, ⟨3, false⟩, ⟨4, true⟩, ⟨5, false⟩,
       ⟨6, false⟩, ⟨7, true⟩, ⟨8, false⟩, ⟨9, false⟩, ⟨10, false⟩] 0 =
      { total_predictions := 10, anomaly_count := 3,
        anomaly_percentage := "30.0", anomaly_timestamps := [7, 4, 1] } := by
  haveI ht : IsTotal ℚ (fun a b : ℚ => b ≤ a) := ⟨fun a b => le_total b a⟩
  haveI htr : IsTrans ℚ (fun a b : ℚ => b ≤ a) :=
    ⟨fun _ _ _ hab hbc => le_trans hbc hab⟩
  refine ⟨?_, by decide⟩
  intro rows since
  refine ⟨rfl, rfl, rfl, ?_, ?_, ?_, ?_⟩
  · intro h0
    simp only [getAnomalySummary, h0]
    rw [if_neg (by decide : ¬((0 : ℕ) > 0))]
    decide
  · simp only [getAnomalySummary]
    exact List.length_take_le 5 _
  · simp only [getAnomalySummary]
    exact (List.sorted_insertionSort _ _).take
  · intro t ht
    simp only [getAnomalySummary] at ht
    have ht2 := List.mem_insertionSort (fun a b : ℚ => b ≤ a)
      |>.mp (List.mem_of_mem_take ht)
    rcases List.mem_map.mp ht2 with ⟨r, hr, hrt⟩
    rcases List.mem_filter.mp hr with ⟨hrw, hra⟩
    exact ⟨r, hrw, by simpa using hra, hrt⟩

/-- Claim C5, witness: the zero-row window renders `"0.0"` and a
window truncates its anomaly-timestamp list to at most 5 entries. -/
theorem getAnomalySummary_counts_and_recent_witness :
    (getAnomalySummary ([] : List AnomalyRow) 0).anomaly_percentage =
      "0.0" ∧
    (getAnomalySummary [⟨1, true⟩, ⟨2, false⟩, ⟨3, true⟩]
      0).anomaly_timestamps.length ≤ 5 :=
  ⟨(getAnomalySummary_counts_and_recent.1 [] 0).2.2.2.1 rfl,
   (getAnomalySummary_counts_and_recent.1 [⟨1, true⟩, ⟨2, false⟩, ⟨3, true⟩]
      0).2.2.2.2.1⟩

/-- Claim C6: the threshold-strategy maintenance check flags
`needed = true` exactly when one of the four thresholds
(`compressor_vibration > 10`, `gas_leakage_level > 50`,
`|temperature_diff| > 25`, `power_consumption > 500`) is exceeded,
with one issue string per exceeded threshold (the vibration one at
`compressor_vibration = 12.0` mentioning vibration), and with no
reading it returns `needed = false`, reason
`"No sensor data available"`. -/
theorem checkMaintenance_threshold_iff :
    (∀ r : SensorReading,
      ((checkMaintenance (some r)).needed = true ↔
        (r.compressor_vibration > 10.0 ∨ r.gas_leakage_level > 50.0 ∨
          |r.temperature_diff| > 25.0 ∨ r.power_consumption > 500.0)) ∧
      (maintenanceIssues r).length =
        ((if r.compressor_vibration > 10.0 then 1 else 0) +
          (if r.gas_leakage_level > 50.0 then 1 else 0) +
          (if |r.temperature_diff| > 25.0 then 1 else 0) +
          (if r.power_consumption > 500.0 then 1 else 0)) ∧
      (r.compressor_vibration > 10.0 →
        ("High compressor vibration (" ++
          jsToFixed 2 r.compressor_vibration ++ " mm/s)") ∈
          maintenanceIssues r) ∧
      (r.gas_leakage_level > 50.0 →
        ("Elevated gas leakage level (" ++
          jsToFixed 2 r.gas_leakage_level ++ " ppm)") ∈
          maintenanceIssues r) ∧
      (|r.temperature_diff| > 25.0 →
        ("Abnormal temperature difference (" ++
          jsToFixed 2 r.temperature_diff ++ " °C)") ∈
          maintenanceIssues r) ∧
      (r.power_consumption > 500.0 →
        ("High power consumption (" ++
          jsToFixed 2 r.power_consumption ++ " W)") ∈
          maintenanceIssues r)) ∧
    checkMaintenance none =
      { needed := false, reason := "No sensor data available",
        data := none } ∧
    (checkMaintenance (some ⟨12, 0, 0, 0⟩)).needed = true ∧
    "High compressor vibration (12.00 mm/s)" ∈
      maintenanceIssues ⟨12, 0, 0, 0⟩ := by
  refine ⟨?_, rfl, by decide, by decide⟩
  intro r
  refine ⟨?_, ?_, ?_, ?_, ?_, ?_⟩
  · simp only [checkMaintenance, decide_eq_true_eq]
    unfold maintenanceIssues
    split_ifs <;> simp [*]
  · unfold maintenanceIssues
    split_ifs <;> simp
  · intro h
    simp [maintenanceIssues, h]
  · intro h
    simp [maintenanceIssues, h]
  · intro h
    simp [maintenanceIssues, h]
  · intro h
    simp [maintenanceIssues, h]

/-- Claim C6, witness: a latest reading with
`compressor_vibration = 12.0` is flagged as needing maintenance. -/
theorem checkMaintenance_threshold_iff_witness :
    (checkMaintenance (some ⟨12, 0, 0, 0⟩)).needed = true :=
  (checkMaintenance_threshold_iff.1 ⟨12, 0, 0, 0⟩).1.mpr
    (Or.inl (by norm_num))

/-- Claim C7: when the classifier output starts with `GENERAL:`, the
orchestrator replies 200 with the substring after the prefix, trimmed,
and issues no store call (no Aggregation Engine or Maintenance
Heuristic) and no formatter call. -/
theorem handleChatRequest_general_shortCircuit
    (env : ChatEnv) (userPrompt s : String)
    (hc : env.classify userPrompt = .ok s)
    (hg : jsStartsWith s "GENERAL:" = true) :
    handleChatRequest env userPrompt =
      { resp := ⟨200, jsTrim (jsSubstringFrom 8 s)⟩, storeCalls := [],
        formatCalls := 0, log := [] } := by
  simp [handleChatRequest, hc, hg]

/-- Claim C7, witness: classifier output `GENERAL:Hello there` yields
the bare reply `"Hello there"` with no store or formatter call. -/
theorem handleChatRequest_general_shortCircuit_witness :
    handleChatRequest
      ⟨fun _ => .ok "GENERAL:Hello there", fun _ => .ok "",
        fun _ _ _ _ => .ok ""⟩ "hi" =
      { resp := ⟨200, "Hello there"⟩, storeCalls := [], formatCalls := 0,
        log := [] } := by
  have h := handleChatRequest_general_shortCircuit
    ⟨fun _ => .ok "GENERAL:Hello there", fun _ => .ok "",
      fun _ _ _ _ => .ok ""⟩ "hi" "GENERAL:Hello there" rfl (by decide)
  exact h.trans (by decide)

/-- Claim C8: when the classifier output's first colon-delimited token
is not a known operation code and the output does not start with
`GENERAL:`, the orchestrator replies 200 with the fixed clarification
message and issues no store call and no formatter call. -/
theorem handleChatRequest_unrecognized_clarifies
    (env : ChatEnv) (userPrompt s : String)
    (hc : env.classify userPrompt = .ok s)
    (hg : jsStartsWith s "GENERAL:" = false)
    (hk : (jsSplit ':' s).headD "" ∉ knownOperations) :
    handleChatRequest env userPrompt =
      { resp := ⟨200, clarificationMessage⟩, storeCalls := [],
        formatCalls := 0, log := [] } := by
  simp only [handleChatRequest, hc, hg, Bool.false_eq_true, if_false,
    dispatch_not_known _ _ _ hk]

/-- Claim C8, witness: classifier output `FOO:bar` yields the
clarification message with no store or formatter call. -/
theorem handleChatRequest_unrecognized_clarifies_witness :
    handleChatRequest
      ⟨fun _ => .ok "FOO:bar", fun _ => .ok "", fun _ _ _ _ => .ok ""⟩
      "hi" =
      { resp := ⟨200, clarificationMessage⟩, storeCalls := [],
        formatCalls := 0, log := [] } :=
  handleChatRequest_unrecognized_clarifies
    ⟨fun _ => .ok "FOO:bar", fun _ => .ok "", fun _ _ _ _ => .ok ""⟩
    "hi" "FOO:bar" rfl (by decide) (by decide)

/-- Claim C9: every request gets a JSON reply (status 200 or 500); a
classifier error, a store error, or a formatter error each produce the
500 reply whose body is the fixed apology constant (so the raw error
message is never part of the user-visible response) and whose log
carries the error message; and the apology constant is the literal
generic apology text. -/
theorem handleChatRequest_errors_caught :
    (∀ (env : ChatEnv) (userPrompt : String),
      (handleChatRequest env userPrompt).resp.status = 200 ∨
      (handleChatRequest env userPrompt).resp.status = 500) ∧
    (∀ (env : ChatEnv) (userPrompt : String) (e : JsError),
      env.classify userPrompt = .error e →
      handleChatRequest env userPrompt =
        { resp := ⟨500, apologyMessage⟩, storeCalls := [], formatCalls := 0,
          log := [errorLogOf e] }) ∧
    (∀ (env : ChatEnv) (userPrompt s : String) (c : StoreCall) (e : JsError),
      env.classify userPrompt = .ok s →
      jsStartsWith s "GENERAL:" = false →
      dispatch ((jsSplit ':' s).headD "") (jsSplit ':' s)[1]?
        (jsSplit ':' s)[2]? = .call c →
      env.store c = .error e →
      handleChatRequest env userPrompt =
        { resp := ⟨500, apologyMessage⟩, storeCalls := [c], formatCalls := 0,
          log := [errorLogOf e] }) ∧
    (∀ (env : ChatEnv) (userPrompt s : String) (c : StoreCall)
        (d : StoreData) (e : JsError),
      env.classify userPrompt = .ok s →
      jsStartsWith s "GENERAL:" = false →
      dispatch ((jsSplit ':' s).headD "") (jsSplit ':' s)[1]?
        (jsSplit ':' s)[2]? = .call c →
      env.store c = .ok d →
      env.format userPrompt ((jsSplit ':' s).headD "") (jsSplit ':' s)[1]?
        d = .error e →
      handleChatRequest env userPrompt =
        { resp := ⟨500, apologyMessage⟩, storeCalls := [c], formatCalls := 1,
          log := [errorLogOf e] }) ∧
    apologyMessage =
      "Sorry, I encountered an error processing your request. Please try again." := by
  refine ⟨?_, ?_, ?_, ?_, rfl⟩
  · intro env userPrompt
    rcases hc : env.classify userPrompt with e | s
    · right
      simp [handleChatRequest, hc]
    · rcases hg : jsStartsWith s "GENERAL:" with _ | _
      · rcases hd : dispatch ((jsSplit ':' s).headD "") (jsSplit ':' s)[1]?
          (jsSplit ':' s)[2]? with c | e | _
        · rcases hs : env.store c with e | d
          · right
            simp only [handleChatRequest, hc, hg, Bool.false_eq_true,
              if_false, hd, hs]
          · rcases hf : env.format userPrompt ((jsSplit ':' s).headD "")
              (jsSplit ':' s)[1]? d with e | resp
            · right
              simp only [handleChatRequest, hc, hg, Bool.false_eq_true,
                if_false, hd, hs, hf]
            · left
              simp only [handleChatRequest, hc, hg, Bool.false_eq_true,
                if_false, hd, hs, hf]
        · right
          simp only [handleChatRequest, hc, hg, Bool.false_eq_true,
            if_false, hd]
        · left
          simp only [handleChatRequest, hc, hg, Bool.false_eq_true,
            if_false, hd]
      · left
        simp [handleChatRequest, hc, hg]
  · intro env userPrompt e hc
    simp [handleChatRequest, hc]
  · intro env userPrompt s c e hc hg hd hs
    simp only [handleChatRequest, hc, hg, Bool.false_eq_true, if_false,
      hd, hs]
  · intro env userPrompt s c d e hc hg hd hs hf
    simp only [handleChatRequest, hc, hg, Bool.false_eq_true, if_false,
      hd, hs, hf]

/-- Claim C9, witness: a store call that throws (`"boom"`) surfaces as
the 500 apology with the error logged, not as a crash. -/
theorem handleChatRequest_errors_caught_witness :
    handleChatRequest
      ⟨fun _ => .ok "MAINTENANCE_CHECK", fun _ => .error ⟨"boom"⟩,
        fun _ _ _ _ => .ok "x"⟩ "q" =
      { resp := ⟨500, apologyMessage⟩, storeCalls := [.maintenanceCheck],
        formatCalls := 0, log := ["Error processing prompt: boom"] } :=
  handleChatRequest_errors_caught.2.2.1
    ⟨fun _ => .ok "MAINTENANCE_CHECK", fun _ => .error ⟨"boom"⟩,
      fun _ _ _ _ => .ok "x"⟩ "q" "MAINTENANCE_CHECK" .maintenanceCheck
    ⟨"boom"⟩ rfl (by decide) (by decide) rfl

/-- Claim C10: a classifier output whose first token is `TREND` but
which carries no time-range token makes the `TREND` branch throw
(`timeRange.replace` on `undefined`), so the request takes the error
path: 500 with the generic apology, no store call, the `TypeError`
logged — not the clarification message and not a trend result. -/
theorem handleChatRequest_trend_missing_range_throws :
    (∀ (env : ChatEnv) (userPrompt s : String),
      env.classify userPrompt = .ok s →
      jsStartsWith s "GENERAL:" = false →
      (jsSplit ':' s).headD "" = "TREND" →
      (jsSplit ':' s)[2]? = none →
      handleChatRequest env userPrompt =
        { resp := ⟨500, apologyMessage⟩, storeCalls := [], formatCalls := 0,
          log := [errorLogOf trendUndefinedError] }) ∧
    apologyMessage ≠ clarificationMessage := by
  refine ⟨?_, by decide⟩
  intro env userPrompt s hc hg hq ht
  have hd : dispatch ((jsSplit ':' s).headD "") (jsSplit ':' s)[1]?
      (jsSplit ':' s)[2]? = .jsThrow trendUndefinedError := by
    rw [hq, ht]
    rfl
  simp only [handleChatRequest, hc, hg, Bool.false_eq_true, if_false, hd]

/-- Claim C10, witness: classifier output `TREND:vibration_level`
(no time range) yields the 500 apology with the `TypeError` logged. -/
theorem handleChatRequest_trend_missing_range_throws_witness :
    handleChatRequest
      ⟨fun _ => .ok "TREND:vibration_level", fun _ => .ok "",
        fun _ _ _ _ => .ok ""⟩ "hi" =
      { resp := ⟨500, apologyMessage⟩, storeCalls := [], formatCalls := 0,
        log := [errorLogOf trendUndefinedError] } :=
  handleChatRequest_trend_missing_range_throws.1
    ⟨fun _ => .ok "TREND:vibration_level", fun _ => .ok "",
      fun _ _ _ _ => .ok ""⟩ "hi" "TREND:vibration_level" rfl (by decide)
    (by decide) (by decide)
